import Mathlib

set_option linter.unusedVariables false

/-!
Verification of the Jam3a mobile app's `PaymentService`
(`src/ios_src/services/PaymentService.ts`), a mocked payment
orchestration façade.

Modelling conventions:

* `Platform.OS` (a React-Native global string) is passed explicitly as a
  `platform : String` argument to every operation that reads it.
* The ambient clock (`Date.now()` and `new Date().toISOString()`) is
  passed explicitly as a `Clock` record.
* A body of the form `new Promise((resolve, reject) => setTimeout(() =>
  resolve(v), d))` is modelled as the record `Delayed.mk d v`: the value
  the promise resolves to together with the nominal delay in
  milliseconds. A `throw` that happens before the promise (and its
  timer) is ever constructed is modelled as the `Except.error` branch of
  the return type, so a thrown error is distinguishable from anything
  delivered through the delayed result channel.
* JavaScript numbers used for money are modelled as `ℚ` (the only
  arithmetic performed is `amount / 4`, exact on rationals as it is on
  the concrete values that occur); integer prices are `ℕ`.
* The object literal `productPrices` is modelled as an association list
  of its own properties, and `a || b` on a number-or-undefined value is
  modelled by `jsOrNum`, which falls through exactly on the falsy values
  `undefined` (here `none`) and `0` (here `some 0`).
-/

namespace PaymentService

/-- Ambient time at the moment a payment operation is invoked:
`nowMs` models `Date.now()` and `nowISO` models
`new Date().toISOString()`. -/
structure Clock where
  nowMs : Nat
  nowISO : String
  deriving Repr, DecidableEq

/-- A promise that resolves with `value` after a nominal `delayMs`
milliseconds, i.e. `new Promise(r => setTimeout(() => r(value), delayMs))`. -/
structure Delayed (α : Type) where
  delayMs : Nat
  value : α
  deriving Repr, DecidableEq

/-- The sole error of the component: the `Error` thrown when a
platform-exclusive payment method is invoked off-platform (the spec's
`PlatformMismatch`), carrying the message string of the source's
`new Error(...)`. -/
inductive PaymentError where
  | platformMismatch (msg : String)
  deriving Repr, DecidableEq

/-- The normalized result record every simulated provider resolves with.
The installment fields are present (`some`) only in the Tabby result,
mirroring the source's object literals. -/
structure PaymentResult where
  success : Bool
  transactionId : String
  amount : ℚ
  currency : String
  paymentMethod : String
  installments : Option Nat := none
  installmentAmount : Option ℚ := none
  timestamp : String
  deriving Repr, DecidableEq

/-- The record `verifyPayment` resolves with. -/
structure VerifyResult where
  transactionId : String
  status : String
  verified : Bool
  deriving Repr, DecidableEq

/-- A read-only catalog entry of `getAvailablePaymentMethods`. -/
structure PaymentMethodDescriptor where
  id : String
  name : String
  icon : String
  deriving Repr, DecidableEq

/-- Metadata values are opaque to the service (the source never reads
them); an association list of strings is enough to state that. -/
abbrev Metadata := List (String × String)

/-- `PaymentService.processCreditCard`: logs, then resolves after 2000 ms
with a success record whose transaction id is `` `moyasar_${Date.now()}` ``.
`metadata` is accepted and ignored, as in the source. -/
def processCreditCard (amount : ℚ) (currency description : String)
    (metadata : Metadata) (clock : Clock) :
    Except PaymentError (Delayed PaymentResult) :=
  .ok ⟨2000,
    { success := true
      transactionId := "moyasar_" ++ toString clock.nowMs
      amount := amount
      currency := currency
      paymentMethod := "credit-card"
      timestamp := clock.nowISO }⟩

/-- `PaymentService.processApplePay`: throws
`Error('Apple Pay is only available on iOS devices')` before any promise
or timer is created when `Platform.OS !== 'ios'`; otherwise resolves
after 1500 ms with an `apple-pay` success record. -/
def processApplePay (platform : String) (amount : ℚ)
    (currency description : String) (clock : Clock) :
    Except PaymentError (Delayed PaymentResult) :=
  if platform ≠ "ios" then
    .error (.platformMismatch "Apple Pay is only available on iOS devices")
  else
    .ok ⟨1500,
      { success := true
        transactionId := "apple_pay_" ++ toString clock.nowMs
        amount := amount
        currency := currency
        paymentMethod := "apple-pay"
        timestamp := clock.nowISO }⟩

/-- `PaymentService.processGooglePay`: throws
`Error('Google Pay is only available on Android devices')` before any
promise or timer is created when `Platform.OS !== 'android'`; otherwise
resolves after 1500 ms with a `google-pay` success record. -/
def processGooglePay (platform : String) (amount : ℚ)
    (currency description : String) (clock : Clock) :
    Except PaymentError (Delayed PaymentResult) :=
  if platform ≠ "android" then
    .error (.platformMismatch "Google Pay is only available on Android devices")
  else
    .ok ⟨1500,
      { success := true
        transactionId := "google_pay_" ++ toString clock.nowMs
        amount := amount
        currency := currency
        paymentMethod := "google-pay"
        timestamp := clock.nowISO }⟩

/-- `PaymentService.processSTCPayiOS`: resolves after 1800 ms with an
`stc-pay` success record; no platform check, no failure path. -/
def processSTCPayiOS (amount : ℚ) (currency description : String)
    (clock : Clock) : Except PaymentError (Delayed PaymentResult) :=
  .ok ⟨1800,
    { success := true
      transactionId := "stc_pay_ios_" ++ toString clock.nowMs
      amount := amount
      currency := currency
      paymentMethod := "stc-pay"
      timestamp := clock.nowISO }⟩

/-- `PaymentService.processSTCPayAndroid`: resolves after 1800 ms with an
`stc-pay` success record; no platform check, no failure path. -/
def processSTCPayAndroid (amount : ℚ) (currency description : String)
    (clock : Clock) : Except PaymentError (Delayed PaymentResult) :=
  .ok ⟨1800,
    { success := true
      transactionId := "stc_pay_android_" ++ toString clock.nowMs
      amount := amount
      currency := currency
      paymentMethod := "stc-pay"
      timestamp := clock.nowISO }⟩

/-- `PaymentService.processTabby`: resolves after 2200 ms with a `tabby`
success record carrying `installments: 4` and
`installmentAmount: amount / 4`. `metadata` is accepted and ignored. -/
def processTabby (amount : ℚ) (currency description : String)
    (metadata : Metadata) (clock : Clock) :
    Except PaymentError (Delayed PaymentResult) :=
  .ok ⟨2200,
    { success := true
      transactionId := "tabby_" ++ toString clock.nowMs
      amount := amount
      currency := currency
      paymentMethod := "tabby"
      installments := some 4
      installmentAmount := some (amount / 4)
      timestamp := clock.nowISO }⟩

/-- `PaymentService.verifyPayment`: resolves after 1000 ms with
`{transactionId, status: 'completed', verified: true}`. It takes no
state of prior calls — statelessness is visible in the signature. -/
def verifyPayment (transactionId : String) : Delayed VerifyResult :=
  ⟨1000, ⟨transactionId, "completed", true⟩⟩

/-- The `commonMethods` array of `getAvailablePaymentMethods`. -/
def commonMethods : List PaymentMethodDescriptor :=
  [⟨"credit-card", "Credit/Debit Card", "card"⟩,
   ⟨"mada", "Mada", "card"⟩,
   ⟨"stc-pay", "STC Pay", "phone-portrait"⟩,
   ⟨"tabby", "Tabby - Pay Later", "time"⟩]

/-- `PaymentService.getAvailablePaymentMethods`: the common four entries
followed by the Apple Pay entry when `Platform.OS === 'ios'`, else the
Google Pay entry (the `else` catches every other platform value). -/
def getAvailablePaymentMethods (platform : String) :
    List PaymentMethodDescriptor :=
  if platform = "ios" then
    commonMethods ++ [⟨"apple-pay", "Apple Pay", "logo-apple"⟩]
  else
    commonMethods ++ [⟨"google-pay", "Google Pay", "logo-google"⟩]

/-- The `productPrices` object literal of `getProductPrice`, as the
association list of its own properties in source order. -/
def productPrices : List (String × Nat) :=
  [("iphone-16", 799),
   ("iphone-16-pro", 999),
   ("iphone-16-pro-max", 1199),
   ("samsung-s25", 799),
   ("samsung-s25-plus", 999),
   ("samsung-s25-ultra", 1199),
   ("samsung-fold6", 1799),
   ("samsung-flip6", 999),
   ("default", 799)]

/-- JavaScript `a || b` on a number-or-undefined left operand: falls
through to `b` exactly when `a` is `undefined` (`none`) or the falsy
number `0`. -/
def jsOrNum (a b : Option Nat) : Option Nat :=
  match a with
  | some n => if n = 0 then b else some n
  | none => b

/-- `PaymentService.getProductPrice`:
`productPrices[productId] || productPrices['default']`. The result is
`Option Nat` because a JavaScript property read can yield `undefined`;
the theorems show it never does here. -/
def getProductPrice (productId : String) : Option Nat :=
  jsOrNum (productPrices.lookup productId) (productPrices.lookup "default")

/-- C1: for every amount, currency and description, `processApplePay`
resolves successfully (success = true, paymentMethod `apple-pay`) when
the platform is `ios`, and on any other platform it fails with the
PlatformMismatch error thrown before any promise or timer exists — the
error is in the `Except.error` channel, with no `Delayed` (hence no
delay) ever constructed. -/
theorem processApplePay_platform_gate (platform : String) (amount : ℚ)
    (currency description : String) (clock : Clock) :
    (platform = "ios" →
      processApplePay platform amount currency description clock =
        .ok ⟨1500,
          { success := true
            transactionId := "apple_pay_" ++ toString clock.nowMs
            amount := amount
            currency := currency
            paymentMethod := "apple-pay"
            timestamp := clock.nowISO }⟩) ∧
    (platform ≠ "ios" →
      processApplePay platform amount currency description clock =
        .error (.platformMismatch
          "Apple Pay is only available on iOS devices")) := by
  constructor
  · intro h
    simp [processApplePay, h]
  · intro h
    simp [processApplePay, h]

/-- Witness for C1 at platform `ios` and at platform `android`, amount
250, currency SAR. -/
theorem processApplePay_platform_gate_witness :
    processApplePay "ios" 250 "SAR" "deal" ⟨7, "t0"⟩ =
      .ok ⟨1500,
        { success := true
          transactionId := "apple_pay_7"
          amount := 250
          currency := "SAR"
          paymentMethod := "apple-pay"
          timestamp := "t0" }⟩ ∧
    processApplePay "android" 250 "SAR" "deal" ⟨7, "t0"⟩ =
      .error (.platformMismatch
        "Apple Pay is only available on iOS devices") :=
  ⟨(processApplePay_platform_gate "ios" 250 "SAR" "deal" ⟨7, "t0"⟩).1 rfl,
   (processApplePay_platform_gate "android" 250 "SAR" "deal" ⟨7, "t0"⟩).2
     (by decide)⟩

/-- C2: for every amount, currency and description, `processGooglePay`
resolves successfully (success = true, paymentMethod `google-pay`) when
the platform is `android`, and on any other platform it fails with the
PlatformMismatch error thrown before any promise or timer exists. -/
theorem processGooglePay_platform_gate (platform : String) (amount : ℚ)
    (currency description : String) (clock : Clock) :
    (platform = "android" →
      processGooglePay platform amount currency description clock =
        .ok ⟨1500,
          { success := true
            transactionId := "google_pay_" ++ toString clock.nowMs
            amount := amount
            currency := currency
            paymentMethod := "google-pay"
            timestamp := clock.nowISO }⟩) ∧
    (platform ≠ "android" →
      processGooglePay platform amount currency description clock =
        .error (.platformMismatch
          "Google Pay is only available on Android devices")) := by
  constructor
  · intro h
    simp [processGooglePay, h]
  · intro h
    simp [processGooglePay, h]

/-- Witness for C2 at platform `android` and at platform `ios`. -/
theorem processGooglePay_platform_gate_witness :
    processGooglePay "android" 250 "SAR" "deal" ⟨7, "t0"⟩ =
      .ok ⟨1500,
        { success := true
          transactionId := "google_pay_7"
          amount := 250
          currency := "SAR"
          paymentMethod := "google-pay"
          timestamp := "t0" }⟩ ∧
    processGooglePay "ios" 250 "SAR" "deal" ⟨7, "t0"⟩ =
      .error (.platformMismatch
        "Google Pay is only available on Android devices") :=
  ⟨(processGooglePay_platform_gate "android" 250 "SAR" "deal" ⟨7, "t0"⟩).1 rfl,
   (processGooglePay_platform_gate "ios" 250 "SAR" "deal" ⟨7, "t0"⟩).2
     (by decide)⟩

/-- C3: for every amount, `processTabby` resolves (never fails) with
success = true, paymentMethod `tabby`, installments = 4 and
installmentAmount exactly `amount / 4`; in particular amount 100 yields
installmentAmount 25. -/
theorem processTabby_installments (amount : ℚ)
    (currency description : String) (metadata : Metadata) (clock : Clock) :
    processTabby amount currency description metadata clock =
      .ok ⟨2200,
        { success := true
          transactionId := "tabby_" ++ toString clock.nowMs
          amount := amount
          currency := currency
          paymentMethod := "tabby"
          installments := some 4
          installmentAmount := some (amount / 4)
          timestamp := clock.nowISO }⟩ ∧
    processTabby 100 currency description metadata clock =
      .ok ⟨2200,
        { success := true
          transactionId := "tabby_" ++ toString clock.nowMs
          amount := 100
          currency := currency
          paymentMethod := "tabby"
          installments := some 4
          installmentAmount := some 25
          timestamp := clock.nowISO }⟩ := by
  refine ⟨rfl, ?_⟩
  have h : (100 : ℚ) / 4 = 25 := by norm_num
  simp [processTabby, h]

/-- C4: `getAvailablePaymentMethods` always returns exactly 5
descriptors: the same four common entries, in the same order, on every
platform, followed by exactly one platform-specific entry appended last —
apple-pay when the platform is `ios`, google-pay for every other
platform value (there is no third branch). -/
theorem getAvailablePaymentMethods_catalog (platform : String) :
    (getAvailablePaymentMethods platform).length = 5 ∧
    (getAvailablePaymentMethods platform).take 4 = commonMethods ∧
    (getAvailablePaymentMethods platform).getLast? =
      some (if platform = "ios" then
              ⟨"apple-pay", "Apple Pay", "logo-apple"⟩
            else
              ⟨"google-pay", "Google Pay", "logo-google"⟩) := by
  by_cases h : platform = "ios" <;>
    simp [getAvailablePaymentMethods, commonMethods, h]

/-- C5: `getProductPrice` is total over arbitrary string identifiers:
it always yields a numeric value (never `undefined`, never an
exception), and when the identifier is absent from the table it falls
back to the default entry, 799. -/
theorem getProductPrice_total (productId : String) :
    (∃ n : Nat, getProductPrice productId = some n) ∧
    (productPrices.lookup productId = none →
      getProductPrice productId = some 799) := by
  constructor
  · unfold getProductPrice jsOrNum
    cases h : productPrices.lookup productId with
    | none => exact ⟨799, by decide⟩
    | some n =>
      by_cases hn : n = 0
      · exact ⟨799, by simp [hn]; decide⟩
      · exact ⟨n, by simp [hn]⟩
  · intro h
    unfold getProductPrice jsOrNum
    rw [h]
    decide

/-- Witness for C5 at the unrecognized identifier `unknown-id-xyz`. -/
theorem getProductPrice_total_witness :
    productPrices.lookup "unknown-id-xyz" = none ∧
    getProductPrice "unknown-id-xyz" = some 799 :=
  ⟨by decide, (getProductPrice_total "unknown-id-xyz").2 (by decide)⟩

/-- C6: for all amount, currency and description, `processCreditCard`
resolves (never rejects) with success = true, paymentMethod
`credit-card`, the amount and currency echoed, and a transactionId
beginning with `moyasar_`. -/
theorem processCreditCard_resolves (amount : ℚ)
    (currency description : String) (metadata : Metadata) (clock : Clock) :
    ∃ d : Delayed PaymentResult,
      processCreditCard amount currency description metadata clock =
        .ok d ∧
      d.value.success = true ∧
      d.value.paymentMethod = "credit-card" ∧
      d.value.amount = amount ∧
      d.value.currency = currency ∧
      ∃ rest : String, d.value.transactionId = "moyasar_" ++ rest :=
  ⟨_, rfl, rfl, rfl, rfl, rfl, toString clock.nowMs, rfl⟩

/-- C7: for every string transactionId — including identifiers never
produced by this component — `verifyPayment` resolves to
`⟨transactionId, "completed", true⟩`; it takes no record of prior calls
(its signature has no state argument) and has no failure channel. -/
theorem verifyPayment_canned (transactionId : String) :
    verifyPayment transactionId =
      ⟨1000, ⟨transactionId, "completed", true⟩⟩ := rfl

/-- C8: `getProductPrice` yields 799 for `iphone-16`, 1799 for
`samsung-fold6`, and the default 799 for the unrecognized identifier
`unknown-id-xyz`. -/
theorem getProductPrice_examples :
    getProductPrice "iphone-16" = some 799 ∧
    getProductPrice "samsung-fold6" = some 1799 ∧
    getProductPrice "unknown-id-xyz" = some 799 := by decide

/-- C9: the metadata argument of `processCreditCard` and `processTabby`
has no effect on the result: two calls identical except in metadata,
issued at the same clock instant, resolve to equal records. -/
theorem metadata_noninterference (amount : ℚ)
    (currency description : String) (meta1 meta2 : Metadata)
    (clock : Clock) :
    processCreditCard amount currency description meta1 clock =
      processCreditCard amount currency description meta2 clock ∧
    processTabby amount currency description meta1 clock =
      processTabby amount currency description meta2 clock :=
  ⟨rfl, rfl⟩

/-- C10: no payment-processing operation validates amount, currency or
description: for every rational amount — zero and negative included —
`processCreditCard`, `processSTCPayiOS`, `processSTCPayAndroid` and
`processTabby` resolve with success = true and echo the given amount and
currency unchanged. -/
theorem no_amount_validation (amount : ℚ)
    (currency description : String) (metadata : Metadata) (clock : Clock) :
    (∃ d, processCreditCard amount currency description metadata clock =
        .ok d ∧ d.value.success = true ∧ d.value.amount = amount ∧
        d.value.currency = currency) ∧
    (∃ d, processSTCPayiOS amount currency description clock =
        .ok d ∧ d.value.success = true ∧ d.value.amount = amount ∧
        d.value.currency = currency) ∧
    (∃ d, processSTCPayAndroid amount currency description clock =
        .ok d ∧ d.value.success = true ∧ d.value.amount = amount ∧
        d.value.currency = currency) ∧
    (∃ d, processTabby amount currency description metadata clock =
        .ok d ∧ d.value.success = true ∧ d.value.amount = amount ∧
        d.value.currency = currency) :=
  ⟨⟨_, rfl, rfl, rfl, rfl⟩, ⟨_, rfl, rfl, rfl, rfl⟩,
   ⟨_, rfl, rfl, rfl, rfl⟩, ⟨_, rfl, rfl, rfl, rfl⟩⟩

end PaymentService
